import Mathlib

/-!
Verification of the session-ticket protection core of rustls
(src/rustls/src/ticketer.rs): the single-key AEAD ticketer, the
key-rotation switcher and the recommended factory.

The Rust code is shallowly embedded:
* byte sequences are `List Nat`;
* a Rust call that can panic is modelled with `RustResult`, whose
  `panicked` constructor marks an `unwrap` firing;
* `&mut` state is explicit state passing: a method on the switcher state
  returns its result together with the final state;
* the ambient randomness consumed by `rand::fill_random` and the wall
  clock read by `timebase` are passed in as explicit arguments, and the
  key generator of the switcher is represented by the outcome of its one
  invocation per call;
* the mutex around `TicketSwitcherState` is a single-threaded no-op here
  (`lock()` succeeding), as concurrency is outside the embedding.

The `ring` AEAD primitive and the `crate::rand` / `ProducesTickets`
items live outside the given source; they are modelled from the spec at
their interface boundary, marked `Modelled from the spec:` below.
-/

namespace RustlsTicketer

/-- Byte sequences (Rust `Vec<u8>` / `&[u8]`). -/
abbrev Bytes := List Nat

/-- Outcome of a Rust expression that may panic: `ok` is normal return,
`panicked` marks an `unwrap` firing on an error value. -/
inductive RustResult (α : Type) where
  | ok : α → RustResult α
  | panicked : RustResult α
deriving DecidableEq

/-- Whether a `RustResult` is the panic outcome. -/
def RustResult.isPanic : RustResult α → Bool
  | .ok _ => false
  | .panicked => true

/-- Modelled from the spec: the error of the random source dependency
`fill_random` (rustls `rand::GetRandomFailed`, not under src/). -/
inductive GetRandomFailed where
  | mk
deriving DecidableEq

/-- Nonce length of the recommended cipher (ring
`CHACHA20_POLY1305.nonce_len() = 12`, per the spec's blob layout). -/
def nonce_len : Nat := 12

/-- Tag length of the recommended cipher (ring
`CHACHA20_POLY1305.tag_len() = 16`, per the spec's blob layout). -/
def tag_len : Nat := 16

/-- Modelled from the spec: one keystream byte of the external AEAD
cipher (ring ChaCha20-Poly1305, outside this repository), an executable
stand-in determined by key, nonce and position. -/
def keystreamByte (key nonce : Bytes) (i : Nat) : Nat :=
  (key.sum + 2 * nonce.sum + i) % 256

/-- Modelled from the spec: the in-place stream encryption of the
external AEAD cipher, XOR of each byte with the keystream starting at
position `i`.  XOR makes the transformation its own inverse. -/
def xorStream (key nonce : Bytes) : Nat → Bytes → Bytes
  | _, [] => []
  | i, b :: rest => (b ^^^ keystreamByte key nonce i) :: xorStream key nonce (i + 1) rest

/-- Modelled from the spec: the authentication tag of the external AEAD
cipher over the sealed payload, `tag_len` bytes determined by key, nonce
and payload. -/
def computeTag (key nonce payload : Bytes) : Bytes :=
  (List.range tag_len).map fun i => (key.sum + nonce.sum + payload.sum + i) % 256

/-- Modelled from the spec: ring `seal_in_place_separate_tag`.  Seals
`data` under `key` and `nonce` with empty associated data, returning the
sealed payload (same length as `data`) and a separate `tag_len`-byte
tag; `none` is the cipher reporting failure (the spec's "underlying seal
operation fails"). -/
def seal_in_place_separate_tag (key nonce data : Bytes) : Option (Bytes × Bytes) :=
  let sealed := xorStream key nonce 0 data
  some (sealed, computeTag key nonce sealed)

/-- Modelled from the spec: ring `open_in_place` with empty associated
data.  `data` is sealed-payload-then-tag; fails if `data` is shorter
than a tag or the tag does not verify, otherwise returns the recovered
plaintext (of length `data.length - tag_len`). -/
def open_in_place (key nonce data : Bytes) : Option Bytes :=
  if data.length < tag_len then none
  else
    let payload := data.take (data.length - tag_len)
    let tag := data.drop (data.length - tag_len)
    if tag = computeTag key nonce payload then some (xorStream key nonce 0 payload)
    else none

/-- Modelled from the spec: ring `Nonce::try_assume_unique_for_key`,
which accepts exactly `nonce_len`-byte slices and fails on any other
length. -/
def try_assume_unique_for_key (b : Bytes) : Option Bytes :=
  if b.length = nonce_len then some b else none

/-- `AeadTicketer` (ticketer.rs lines 22-26): one bound key and an
advisory lifetime; the algorithm is fixed to the recommended cipher. -/
structure AeadTicketer where
  key : Bytes
  lifetime : Nat

/-- `AeadTicketer::new` sets `lifetime: 60 * 60 * 12` (line 40). -/
def AeadTicketer.new_lifetime : Nat := 60 * 60 * 12

/-- `ProducesTickets for AeadTicketer: fn enabled` (lines 46-48). -/
def AeadTicketer.enabled (_ : AeadTicketer) : Bool := true

/-- `ProducesTickets for AeadTicketer: fn lifetime` (lines 49-51). -/
def AeadTicketer.lifetimeFn (t : AeadTicketer) : Nat := t.lifetime

/-- `AeadTicketer::encrypt` (ticketer.rs lines 54-72).  `randNonce` is
the outcome of `rand::fill_random(&mut nonce_buf)`: `none` if the
random source failed, in which case the code's `.unwrap()` panics;
otherwise the 12 filled bytes.  On success the result is
nonce-then-sealed-payload-then-tag; a seal failure is turned into a
normal `none` by `.ok()`. -/
def AeadTicketer.encrypt (t : AeadTicketer) (randNonce : Option Bytes)
    (message : Bytes) : RustResult (Option Bytes) :=
  match randNonce with
  | none => .panicked
  | some nonce_buf =>
    match seal_in_place_separate_tag t.key nonce_buf message with
    | some (sealed, tag) => .ok (some (nonce_buf ++ sealed ++ tag))
    | none => .ok none

/-- `AeadTicketer::decrypt` (ticketer.rs lines 75-102).  Rejects inputs
shorter than `nonce_len + tag_len`; then parses the leading
`nonce_len` bytes as the nonce (the code `.unwrap()`s this parse, hence
the `panicked` branch), opens the remainder in place, and truncates the
buffer to the recovered plaintext length. -/
def AeadTicketer.decrypt (t : AeadTicketer) (ciphertext : Bytes) :
    RustResult (Option Bytes) :=
  if ciphertext.length < nonce_len + tag_len then .ok none
  else
    match try_assume_unique_for_key (ciphertext.take nonce_len) with
    | none => .panicked
    | some nonce =>
      let out := ciphertext.drop nonce_len
      match open_in_place t.key nonce out with
      | none => .ok none
      | some plaintext => .ok (some (plaintext.take plaintext.length))

/-- Modelled from the spec: the capability interface
`crate::server::ProducesTickets` (not under src/), the shape of the
boxed trait objects held by the switcher. -/
structure ProducesTickets where
  enabled : Bool
  lifetime : Nat
  encrypt : Bytes → Option Bytes
  decrypt : Bytes → Option Bytes

/-- `TicketSwitcherState` (ticketer.rs lines 105-109). -/
structure TicketSwitcherState where
  current : ProducesTickets
  previous : Option ProducesTickets
  next_switch_time : Nat

/-- Number of live key generations held by a switcher state: `current`
plus `previous` when present. -/
def liveGenerations (st : TicketSwitcherState) : Nat :=
  1 + st.previous.toList.length

/-- `TicketSwitcher::maybe_roll` (ticketer.rs lines 146-157).
`genResult` is the outcome of the one `(self.generator)()` call;
`now` is `timebase()`.  Returns the `Result` together with the final
state (the `&mut` state made explicit).  Note the order in the source:
the generator runs first and its `?` returns before any field of the
state is assigned. -/
def maybe_roll (lifetime : Nat) (genResult : Except GetRandomFailed ProducesTickets)
    (now : Nat) (st : TicketSwitcherState) :
    Except GetRandomFailed Unit × TicketSwitcherState :=
  if now > st.next_switch_time then
    match genResult with
    | .error e => (.error e, st)
    | .ok fresh => (.ok (), ⟨fresh, some st.current, now + lifetime⟩)
  else (.ok (), st)

/-- `ProducesTickets for TicketSwitcher: fn lifetime` (lines 161-163):
`self.lifetime * 2` in `u32` arithmetic, hence reduced modulo `2^32`. -/
def TicketSwitcher.lifetimeFn (lifetime : Nat) : Nat :=
  lifetime * 2 % 4294967296

/-- `ProducesTickets for TicketSwitcher: fn enabled` (lines 165-167). -/
def TicketSwitcher.enabledFn : Bool := true

/-- `TicketSwitcher::encrypt` (ticketer.rs lines 169-175): lock, run the
lazy rotation check (its failure becomes `none` via `.ok()?`), then
delegate to the current ticketer. -/
def TicketSwitcher.encrypt (lifetime : Nat)
    (genResult : Except GetRandomFailed ProducesTickets) (now : Nat)
    (st : TicketSwitcherState) (message : Bytes) :
    Option Bytes × TicketSwitcherState :=
  match maybe_roll lifetime genResult now st with
  | (.error _, st1) => (none, st1)
  | (.ok _, st1) => (st1.current.encrypt message, st1)

/-- `TicketSwitcher::decrypt` (ticketer.rs lines 177-192): lock, run the
lazy rotation check, then try the current ticketer and fall back to the
previous one (if any) when the current fails. -/
def TicketSwitcher.decrypt (lifetime : Nat)
    (genResult : Except GetRandomFailed ProducesTickets) (now : Nat)
    (st : TicketSwitcherState) (ciphertext : Bytes) :
    Option Bytes × TicketSwitcherState :=
  match maybe_roll lifetime genResult now st with
  | (.error _, st1) => (none, st1)
  | (.ok _, st1) =>
    (match st1.current.decrypt ciphertext with
     | some v => some v
     | none =>
       match st1.previous with
       | some p => p.decrypt ciphertext
       | none => none, st1)

/-- `TicketSwitcher::new` (ticketer.rs lines 125-138): initial state on
generator success, with no previous ticketer and the first deadline one
period from now. -/
def TicketSwitcher.new (lifetime : Nat)
    (genResult : Except GetRandomFailed ProducesTickets) (now : Nat) :
    Except GetRandomFailed TicketSwitcherState :=
  match genResult with
  | .error e => .error e
  | .ok fresh => .ok ⟨fresh, none, now + lifetime⟩

/-- States a `TicketSwitcher` can hold: the state built by
`TicketSwitcher::new`, and anything `maybe_roll` (the only mutation,
performed inside every encrypt/decrypt) produces from a reachable
state. -/
inductive Reachable (lifetime : Nat) : TicketSwitcherState → Prop
  | init (fresh : ProducesTickets) (now : Nat) :
      Reachable lifetime ⟨fresh, none, now + lifetime⟩
  | step (g : Except GetRandomFailed ProducesTickets) (now : Nat)
      (st : TicketSwitcherState) : Reachable lifetime st →
      Reachable lifetime (maybe_roll lifetime g now st).2

/-- `Ticketer::new` (ticketer.rs lines 202-209) passes `6 * 60 * 60` as
the rotation period of the switcher it builds. -/
def Ticketer.rotationPeriod : Nat := 6 * 60 * 60

/-! Concrete instances used to evaluate the definitions. -/

/-- A 32-byte key of sevens, standing in for one random draw. -/
def demoKey : Bytes := List.replicate 32 7

/-- A fixed 12-byte nonce, standing in for one random draw. -/
def demoNonce : Bytes := [0, 1, 2, 3, 4, 5, 6, 7, 8, 9, 10, 11]

/-- A concrete single-key ticketer with the recommended lifetime. -/
def demoAead : AeadTicketer := ⟨demoKey, AeadTicketer.new_lifetime⟩

/-- The bytes of the test message of `basic_pairwise_test`. -/
def helloWorld : Bytes := [104, 101, 108, 108, 111, 32, 119, 111, 114, 108, 100]

/-- `demoAead` packaged behind the capability interface, with the
random source fixed to `demoNonce` (on that fixed successful draw the
panic branch of `AeadTicketer.encrypt` is unreachable). -/
def demoInner : ProducesTickets :=
  ⟨true, AeadTicketer.new_lifetime,
    fun m => match demoAead.encrypt (some demoNonce) m with
      | .ok r => r
      | .panicked => none,
    fun c => match demoAead.decrypt c with
      | .ok r => r
      | .panicked => none⟩

/-- A ticketer whose operations always fail; used to populate states. -/
def trivTicketer : ProducesTickets := ⟨true, 0, fun _ => none, fun _ => none⟩

/-- A ticketer whose operations always return `r`. -/
def constTicketer (r : Option Bytes) : ProducesTickets :=
  ⟨true, 0, fun _ => r, fun _ => r⟩

/-! Helper lemmas about the AEAD model. -/

/-- The stream cipher preserves length. -/
theorem xorStream_length (key nonce : Bytes) (i : Nat) (bs : Bytes) :
    (xorStream key nonce i bs).length = bs.length := by
  induction bs generalizing i with
  | nil => rfl
  | cons b rest ih => simp [xorStream, ih]

/-- The stream cipher is its own inverse at any starting position. -/
theorem xorStream_xorStream (key nonce : Bytes) (i : Nat) (bs : Bytes) :
    xorStream key nonce i (xorStream key nonce i bs) = bs := by
  induction bs generalizing i with
  | nil => rfl
  | cons b rest ih =>
    simp only [xorStream, ih]
    rw [Nat.xor_assoc, Nat.xor_self, Nat.xor_zero]

/-- The tag has length `tag_len`. -/
theorem computeTag_length (key nonce payload : Bytes) :
    (computeTag key nonce payload).length = tag_len := by
  simp [computeTag]

/-- Taking exactly the length of the left part of an append. -/
theorem take_append_exact (l1 l2 : Bytes) (n : Nat) (h : l1.length = n) :
    (l1 ++ l2).take n = l1 := by
  subst h
  induction l1 with
  | nil => rfl
  | cons b rest ih => simp [ih]

/-- Dropping exactly the length of the left part of an append. -/
theorem drop_append_exact (l1 l2 : Bytes) (n : Nat) (h : l1.length = n) :
    (l1 ++ l2).drop n = l2 := by
  subst h
  induction l1 with
  | nil => rfl
  | cons b rest ih => simp [ih]

/-! Theorems for the claims. -/

/-- C10: any input blob shorter than `nonce_len + tag_len` (28 bytes for
the recommended cipher) makes `AeadTicketer::decrypt` return `none`
immediately, by the leading length guard, without panicking. -/
theorem c10_too_short_rejected (t : AeadTicketer) (ct : Bytes)
    (h : ct.length < nonce_len + tag_len) : t.decrypt ct = .ok none := by
  unfold AeadTicketer.decrypt
  rw [if_pos h]

/-- Witness for C10 at a concrete 27-byte blob. -/
theorem c10_too_short_rejected_witness :
    (List.replicate 27 0 : Bytes).length < nonce_len + tag_len ∧
      demoAead.decrypt (List.replicate 27 0) = .ok none :=
  ⟨by decide, c10_too_short_rejected demoAead (List.replicate 27 0) (by decide)⟩

/-- C7: `AeadTicketer::decrypt` never panics on any input: once the
minimum-length guard has passed, the slice handed to the nonce parser
has exactly `nonce_len` bytes, so its `unwrap` cannot fire, and every
remaining path returns normally. -/
theorem c7_decrypt_never_panics (t : AeadTicketer) (ct : Bytes) :
    (t.decrypt ct).isPanic = false := by
  unfold AeadTicketer.decrypt
  by_cases h : ct.length < nonce_len + tag_len
  · rw [if_pos h]
    rfl
  · rw [if_neg h]
    have h12 : (ct.take nonce_len).length = nonce_len := by
      rw [List.length_take]
      omega
    unfold try_assume_unique_for_key
    rw [if_pos h12]
    dsimp only
    cases open_in_place t.key (ct.take nonce_len) (ct.drop nonce_len) <;> rfl

/-- C1: evaluating `AeadTicketer::encrypt` at a failing random source.
The claim (and the spec) say a random-source failure while drawing the
nonce yields `none`; the code instead calls
`rand::fill_random(&mut nonce_buf).unwrap()` and panics. -/
theorem c1_encrypt_panics_on_rand_failure :
    demoAead.encrypt none helloWorld = .panicked := rfl

/-- C9 counterexample: the claim quantifies over every u32 period `p`,
but `lifetime()` computes `self.lifetime * 2` in u32, which wraps: at
`p = 2^31` it returns 0, not `2 * p`. -/
theorem c9_lifetime_overflow :
    ¬ TicketSwitcher.lifetimeFn 2147483648 = 2 * 2147483648 := by decide

/-- C9 amended: `lifetime()` returns `2 * p` for every period `p` whose
double fits in u32; the recommended switcher (6-hour period) reports a
43200-second lifetime and is enabled. -/
theorem c9_lifetime_doubles (p : Nat) (h : p * 2 < 4294967296) :
    TicketSwitcher.lifetimeFn p = 2 * p ∧
      TicketSwitcher.lifetimeFn Ticketer.rotationPeriod = 43200 ∧
      TicketSwitcher.enabledFn = true := by
  refine ⟨?_, by decide, rfl⟩
  unfold TicketSwitcher.lifetimeFn
  rw [Nat.mod_eq_of_lt h]
  omega

/-- Witness for C9 amended at `p = 21600`. -/
theorem c9_lifetime_doubles_witness :
    TicketSwitcher.lifetimeFn 21600 = 2 * 21600 ∧
      TicketSwitcher.lifetimeFn Ticketer.rotationPeriod = 43200 ∧
      TicketSwitcher.enabledFn = true :=
  c9_lifetime_doubles 21600 (by decide)

/-- C2: when the rotation deadline has passed but the generator fails,
`maybe_roll` returns the error with the state exactly as before — no
slot and no deadline is touched — and both `encrypt` and `decrypt`
turn that failure into a `none` return, again leaving the state
unchanged. -/
theorem c2_generator_failure_keeps_state (l : Nat) (e : GetRandomFailed)
    (now : Nat) (st : TicketSwitcherState) (m c : Bytes)
    (h : st.next_switch_time < now) :
    maybe_roll l (.error e) now st = (.error e, st) ∧
      TicketSwitcher.encrypt l (.error e) now st m = (none, st) ∧
      TicketSwitcher.decrypt l (.error e) now st c = (none, st) := by
  have hroll : maybe_roll l (.error e) now st = (.error e, st) := by
    unfold maybe_roll
    rw [if_pos h]
  refine ⟨hroll, ?_, ?_⟩
  · unfold TicketSwitcher.encrypt
    rw [hroll]
  · unfold TicketSwitcher.decrypt
    rw [hroll]

/-- Witness for C2 at a concrete overdue state. -/
theorem c2_generator_failure_keeps_state_witness :
    maybe_roll 5 (.error .mk) 20 ⟨trivTicketer, none, 10⟩ =
        (.error .mk, ⟨trivTicketer, none, 10⟩) ∧
      TicketSwitcher.encrypt 5 (.error .mk) 20 ⟨trivTicketer, none, 10⟩ [] =
        (none, ⟨trivTicketer, none, 10⟩) ∧
      TicketSwitcher.decrypt 5 (.error .mk) 20 ⟨trivTicketer, none, 10⟩ [] =
        (none, ⟨trivTicketer, none, 10⟩) :=
  c2_generator_failure_keeps_state 5 .mk 20 ⟨trivTicketer, none, 10⟩ [] [] (by decide)

/-- C3: the lazy rotation check.  If `now ≤ next_switch_time` the state
is unchanged; if the deadline has passed and the generator succeeds, the
old current ticketer becomes previous (discarding any prior previous),
the fresh ticketer becomes current, and the deadline becomes
`now + period` (measured from now, not from the old deadline).  Both
`encrypt` and `decrypt` leave the state exactly as the rotation check
does. -/
theorem c3_lazy_rotation :
    (∀ l g now st, now ≤ st.next_switch_time →
        maybe_roll l g now st = (.ok (), st)) ∧
      (∀ l fresh now st, st.next_switch_time < now →
          maybe_roll l (.ok fresh) now st =
            (.ok (), ⟨fresh, some st.current, now + l⟩)) ∧
      (∀ l g now st m,
          (TicketSwitcher.encrypt l g now st m).2 = (maybe_roll l g now st).2) ∧
      (∀ l g now st c,
          (TicketSwitcher.decrypt l g now st c).2 = (maybe_roll l g now st).2) := by
  refine ⟨?_, ?_, ?_, ?_⟩
  · intro l g now st h
    unfold maybe_roll
    rw [if_neg (by omega)]
  · intro l fresh now st h
    unfold maybe_roll
    rw [if_pos h]
  · intro l g now st m
    unfold TicketSwitcher.encrypt
    cases hr : maybe_roll l g now st with
    | mk r st1 => cases r <;> rfl
  · intro l g now st c
    unfold TicketSwitcher.decrypt
    cases hr : maybe_roll l g now st with
    | mk r st1 => cases r <;> rfl

/-- Witness for C3: a not-yet-due check is a no-op; an overdue check
with a successful generator demotes current and resets the deadline. -/
theorem c3_lazy_rotation_witness :
    maybe_roll 5 (.ok trivTicketer) 3 ⟨trivTicketer, none, 10⟩ =
        (.ok (), ⟨trivTicketer, none, 10⟩) ∧
      maybe_roll 5 (.ok (constTicketer none)) 20 ⟨trivTicketer, none, 10⟩ =
        (.ok (), ⟨constTicketer none, some trivTicketer, 25⟩) :=
  ⟨c3_lazy_rotation.1 5 (.ok trivTicketer) 3 ⟨trivTicketer, none, 10⟩ (by decide),
    c3_lazy_rotation.2.1 5 (constTicketer none) 20 ⟨trivTicketer, none, 10⟩ (by decide)⟩

/-- C4: after a successful rotation check ending in state `st1`,
`TicketSwitcher::decrypt` returns whatever the current ticketer yields
if it yields a value; otherwise the previous ticketer's result when one
exists; and `none` when there is no previous ticketer. -/
theorem c4_decrypt_fallback (l : Nat)
    (g : Except GetRandomFailed ProducesTickets) (now : Nat)
    (st st1 : TicketSwitcherState) (c : Bytes)
    (h : maybe_roll l g now st = (.ok (), st1)) :
    (∀ v, st1.current.decrypt c = some v →
        (TicketSwitcher.decrypt l g now st c).1 = some v) ∧
      (∀ p, st1.current.decrypt c = none → st1.previous = some p →
          (TicketSwitcher.decrypt l g now st c).1 = p.decrypt c) ∧
      (st1.current.decrypt c = none → st1.previous = none →
          (TicketSwitcher.decrypt l g now st c).1 = none) := by
  unfold TicketSwitcher.decrypt
  rw [h]
  refine ⟨?_, ?_, ?_⟩
  · intro v hv
    dsimp only
    rw [hv]
  · intro p hc hp
    dsimp only
    rw [hc, hp]
  · intro hc hp
    dsimp only
    rw [hc, hp]

/-- Witness for C4: a state whose current ticketer succeeds. -/
theorem c4_decrypt_fallback_witness :
    (TicketSwitcher.decrypt 5 (.ok trivTicketer) 3
        ⟨constTicketer (some [1]), none, 10⟩ [9]).1 = some [1] :=
  (c4_decrypt_fallback 5 (.ok trivTicketer) 3
      ⟨constTicketer (some [1]), none, 10⟩
      ⟨constTicketer (some [1]), none, 10⟩ [9] rfl).1 [1] rfl

/-- C6: every reachable switcher state holds exactly one current and at
most one previous ticketer, so at most two key generations are live;
and `TicketSwitcher::encrypt` never consults the previous ticketer —
its result is the same whatever sits in the previous slot. -/
theorem c6_two_generations :
    (∀ l st, Reachable l st → liveGenerations st ≤ 2) ∧
      (∀ l g now cur p1 p2 nst m,
          (TicketSwitcher.encrypt l g now ⟨cur, p1, nst⟩ m).1 =
            (TicketSwitcher.encrypt l g now ⟨cur, p2, nst⟩ m).1) := by
  constructor
  · intro l st _
    rcases st with ⟨c, p, n⟩
    cases p <;> simp [liveGenerations]
  · intro l g now cur p1 p2 nst m
    unfold TicketSwitcher.encrypt maybe_roll
    dsimp only
    by_cases h : now > nst
    · rw [if_pos h, if_pos h]
      cases g <;> rfl
    · rw [if_neg h, if_neg h]

/-- Witness for C6 at a freshly constructed state. -/
theorem c6_two_generations_witness :
    liveGenerations ⟨trivTicketer, none, 12⟩ ≤ 2 :=
  c6_two_generations.1 5 ⟨trivTicketer, none, 12⟩ (Reachable.init trivTicketer 7)

/-- Evaluation of `AeadTicketer::encrypt` on a successful nonce draw:
the result is nonce-then-sealed-payload-then-tag. -/
theorem encrypt_eq (t : AeadTicketer) (nb m : Bytes) :
    t.encrypt (some nb) m =
      .ok (some (nb ++ xorStream t.key nb 0 m ++
        computeTag t.key nb (xorStream t.key nb 0 m))) := rfl

/-- Opening a sealed-payload-then-tag pair recovers the message. -/
theorem open_seal (key nonce m : Bytes) :
    open_in_place key nonce
      (xorStream key nonce 0 m ++ computeTag key nonce (xorStream key nonce 0 m)) =
      some m := by
  have hsl := xorStream_length key nonce 0 m
  have htl := computeTag_length key nonce (xorStream key nonce 0 m)
  have hdl : (xorStream key nonce 0 m ++
      computeTag key nonce (xorStream key nonce 0 m)).length = m.length + tag_len := by
    simp [hsl, htl]
  unfold open_in_place
  dsimp only
  rw [hdl]
  rw [if_neg (by omega)]
  have hsub : m.length + tag_len - tag_len = m.length := by omega
  rw [hsub]
  rw [take_append_exact _ _ _ hsl, drop_append_exact _ _ _ hsl]
  rw [if_pos rfl]
  rw [xorStream_xorStream]

/-- C5: round-trip.  Whenever `AeadTicketer::encrypt` succeeds on a
message (under any successful 12-byte nonce draw), `decrypt` of its
output succeeds and returns exactly the original message. -/
theorem c5_roundtrip (key : Bytes) (lt : Nat) (nb m blob : Bytes)
    (hnb : nb.length = nonce_len)
    (henc : AeadTicketer.encrypt ⟨key, lt⟩ (some nb) m = .ok (some blob)) :
    AeadTicketer.decrypt ⟨key, lt⟩ blob = .ok (some m) := by
  rw [encrypt_eq] at henc
  simp only [RustResult.ok.injEq, Option.some.injEq] at henc
  subst henc
  have hsl := xorStream_length key nb 0 m
  have htl := computeTag_length key nb (xorStream key nb 0 m)
  rw [List.append_assoc]
  have hlen : (nb ++ (xorStream key nb 0 m ++
      computeTag key nb (xorStream key nb 0 m))).length =
      nonce_len + (m.length + tag_len) := by
    simp [hnb, hsl, htl]
  unfold AeadTicketer.decrypt
  rw [hlen]
  rw [if_neg (by omega)]
  rw [take_append_exact _ _ _ hnb]
  unfold try_assume_unique_for_key
  rw [if_pos hnb]
  dsimp only
  rw [drop_append_exact _ _ _ hnb]
  rw [open_seal key nb m]
  dsimp only
  rw [List.take_length]

/-- The blob produced by encrypting a three-byte message with the
concrete ticketer and nonce. -/
def demoBlob : Bytes :=
  match demoAead.encrypt (some demoNonce) [1, 2, 3] with
  | .ok (some b) => b
  | _ => []

/-- Witness for C5 at a concrete key, nonce and message. -/
theorem c5_roundtrip_witness :
    AeadTicketer.decrypt ⟨demoKey, AeadTicketer.new_lifetime⟩ demoBlob =
      .ok (some [1, 2, 3]) :=
  c5_roundtrip demoKey AeadTicketer.new_lifetime demoNonce [1, 2, 3] demoBlob
    (by decide) (by decide)

/-- C8: a successful `AeadTicketer::encrypt` of `msg` is laid out as the
12 nonce bytes, then `msg.length` sealed payload bytes, then 16 tag
bytes, so its length is `12 + msg.length + 16`; and the recommended
switcher encrypting the 11-byte message of the pairwise test yields a
39-byte blob. -/
theorem c8_blob_layout :
    (∀ (t : AeadTicketer) (nb msg : Bytes), nb.length = nonce_len →
        ∃ payload tag,
          t.encrypt (some nb) msg = .ok (some (nb ++ payload ++ tag)) ∧
            payload.length = msg.length ∧ tag.length = tag_len ∧
            (nb ++ payload ++ tag).length = 12 + msg.length + 16) ∧
      Option.map List.length
        (TicketSwitcher.encrypt Ticketer.rotationPeriod (.ok demoInner) 1000
          ⟨demoInner, none, 1000 + Ticketer.rotationPeriod⟩ helloWorld).1 =
        some 39 := by
  constructor
  · intro t nb msg hnb
    refine ⟨xorStream t.key nb 0 msg,
      computeTag t.key nb (xorStream t.key nb 0 msg),
      encrypt_eq t nb msg, xorStream_length t.key nb 0 msg,
      computeTag_length t.key nb _, ?_⟩
    have h1 : (nb ++ xorStream t.key nb 0 msg ++
        computeTag t.key nb (xorStream t.key nb 0 msg)).length =
        nb.length + (xorStream t.key nb 0 msg).length +
          (computeTag t.key nb (xorStream t.key nb 0 msg)).length := by
      simp
      omega
    rw [h1, hnb, xorStream_length, computeTag_length]
    simp only [nonce_len, tag_len]
  · decide

/-- Witness for C8 at a concrete nonce and one-byte message. -/
theorem c8_blob_layout_witness :
    ∃ payload tag,
      demoAead.encrypt (some demoNonce) [1] =
          .ok (some (demoNonce ++ payload ++ tag)) ∧
        payload.length = ([1] : Bytes).length ∧ tag.length = tag_len ∧
        (demoNonce ++ payload ++ tag).length = 12 + ([1] : Bytes).length + 16 :=
  c8_blob_layout.1 demoAead demoNonce [1] (by decide)

end RustlsTicketer
